import Mathlib

/-!
Verification development for the user-management backend
(`src/src/controllers/user.controller.ts` and the `User` document interface).

The controller source is embedded directly.  The `UserService` module it
calls is not part of the available sources; its operations are modelled from
the specification (each such definition carries a doc comment starting
`Modelled from the spec:`).  Handlers are parametrised over the service
functions they call, mirroring the dependency on the imported `UserService`.
-/

/-- User account record, following the `User` interface in
`src/unnamed/part_000` (firstName, lastName, email, password, isVerified,
verificationCode) plus the store-assigned identifier carried by every
mongoose `Document`.  The `verificationCode` field is `Option String`:
Modelled from the spec: "verificationCode (string, nullable, transient)" —
the mongoose schema and service that decide its presence are not among the
sources. -/
structure User where
  id : String
  firstName : String
  lastName : String
  email : String
  password : String
  isVerified : Bool
  verificationCode : Option String
deriving Repr, DecidableEq

/-- The persistent user store, as a list of account records. -/
abbrev UserStore := List User

/-- Look a user up by id. -/
def findById (store : UserStore) (id : String) : Option User :=
  List.find? (fun u => u.id = id) store

/-- Look a user up by email. -/
def findByEmail (store : UserStore) (email : String) : Option User :=
  List.find? (fun u => u.email = email) store

/-- A JSON leaf value, enough for the response bodies the controller builds. -/
inductive JLeaf where
  | null
  | str (s : String)
  | bool (b : Bool)
deriving Repr, DecidableEq

/-- A JSON value: a leaf or a one-level object (the controller nests objects
at most once, in the login success body). -/
inductive JVal where
  | leaf (l : JLeaf)
  | obj (fields : List (String × JLeaf))
deriving Repr, DecidableEq

/-- An HTTP response as the controller produces it: a status code and a JSON
object body (field name / value pairs, in construction order). -/
structure HttpResponse where
  status : Nat
  body : List (String × JVal)
deriving Repr, DecidableEq

/-- Serialize an optional string (absent becomes JSON null). -/
def optStr : Option String → JLeaf
  | none => JLeaf.null
  | some s => JLeaf.str s

/-- Serialize a user record for a response payload.  Modelled from the spec:
"password field excluded from any outward-facing payload". -/
def userToJVal (u : User) : JVal :=
  JVal.obj [("id", JLeaf.str u.id), ("firstName", JLeaf.str u.firstName),
    ("lastName", JLeaf.str u.lastName), ("email", JLeaf.str u.email),
    ("isVerified", JLeaf.bool u.isVerified),
    ("verificationCode", optStr u.verificationCode)]

/-- Serialize an optional user (absent becomes JSON null, as `res.json`
renders a `null` service result). -/
def optUserJVal : Option User → JVal
  | none => JVal.leaf JLeaf.null
  | some u => userToJVal u

/-- A request body as the handlers see it: string field name / value pairs. -/
abbrev ReqBody := List (String × String)

/-- Field access on a request body (`req.body.code` etc.): first matching
field, `none` when absent. -/
def bodyLookup (body : ReqBody) (k : String) : Option String :=
  Option.map (fun p => p.2) (List.find? (fun p => p.1 = k) body)

/-! ## Routing table

Embeds `initRoutes` (user.controller.ts lines 18-67).  Each route lists, in
registration order, the middlewares that run before its handler. -/

inductive HttpMethod where
  | post
  | get
  | put
  | delete
deriving Repr, DecidableEq

/-- The middlewares the controller wires in front of handlers. -/
inductive Middleware where
  | validation (schema : String)
  | jwtTokenRequiring
deriving Repr, DecidableEq

/-- One registered route: method, path, the middlewares that run before the
handler, and the handler's name. -/
structure Route where
  method : HttpMethod
  path : String
  middlewares : List Middleware
  handler : String
deriving Repr, DecidableEq

/-- The controller's base path (`public path = "/users"`). -/
def basePath : String := "/users"

/-- The routes registered by `initRoutes` (user.controller.ts lines 18-67),
in source order. -/
def routes : List Route :=
  [⟨HttpMethod.post, basePath ++ "/register",
      [Middleware.validation "UserSchemas.create"], "create"⟩,
   ⟨HttpMethod.post, basePath ++ "/login",
      [Middleware.validation "UserSchemas.login"], "login"⟩,
   ⟨HttpMethod.post, basePath ++ "/request-verification-code",
      [Middleware.jwtTokenRequiring], "requestVerification"⟩,
   ⟨HttpMethod.get, basePath,
      [Middleware.jwtTokenRequiring], "getAllUsers"⟩,
   ⟨HttpMethod.get, basePath ++ "/:id",
      [Middleware.jwtTokenRequiring], "getUserById"⟩,
   ⟨HttpMethod.put, basePath ++ "/verify-user",
      [Middleware.jwtTokenRequiring], "verifyUser"⟩,
   ⟨HttpMethod.put, basePath ++ "/:id",
      [Middleware.jwtTokenRequiring], "updateUser"⟩,
   ⟨HttpMethod.delete, basePath ++ "/:id",
      [Middleware.jwtTokenRequiring], "deleteUser"⟩]

/-! ## Service results (shapes of the objects `UserService` returns,
as the controller consumes them). -/

/-- Result shape of `UserService.CreateUser`: a boolean status flag, a
message and the created record (consumed at controller lines 71-77). -/
structure CreateResult where
  status : Bool
  message : String
  data : Option User
deriving Repr, DecidableEq

/-- Result shape of `UserService.login`: status flag, message and an
authentication token (consumed at controller lines 107-120). -/
structure LoginResult where
  status : Bool
  message : String
  token : Option String
deriving Repr, DecidableEq

/-- Result shape of `UserService.requestVerificationCode`: status flag and
message (consumed at controller lines 125-130). -/
structure ReqVerResult where
  status : Bool
  message : String
deriving Repr, DecidableEq

/-- Result shape of `UserService.verifyUser`: a verified flag and message
(consumed at controller lines 137-142). -/
structure VerifyResult where
  verified : Bool
  message : String
deriving Repr, DecidableEq

namespace UserService

/-! The `UserService` module imported by the controller is not among the
sources; each operation below is modelled from the specification
(section 4.1, AccountService). -/

/-- Modelled from the spec: passwords are "one-way hashed before
persistence"; the hash itself is an external detail, modelled as an
injective tagging function. -/
def hashPassword (p : String) : String := "hashed(" ++ p ++ ")"

/-- Modelled from the spec: the external TokenIssuer creating a bearer token
for a user identifier. -/
def issueToken (id : String) : String := "token(" ++ id ++ ")"

/-- Modelled from the spec: the "opaque unique identifier (assigned by
UserStore on creation)". -/
def freshId (store : UserStore) : String := "user-" ++ toString store.length

/-- Registration input: first/last name, email, plaintext password. -/
structure RegistrationData where
  firstName : String
  lastName : String
  email : String
  password : String
deriving Repr, DecidableEq

/-- Modelled from the spec: `CreateUser(registrationData)` — fails with
status=false on duplicate email, never throws for expected conflicts (it is
a total function); otherwise hashes the password and inserts an account that
"starts unverified" with no verification code issued. -/
def CreateUser (store : UserStore) (reg : RegistrationData) :
    CreateResult × UserStore :=
  match findByEmail store reg.email with
  | some _ => (⟨false, "User creation failed", none⟩, store)
  | none =>
    let u : User :=
      ⟨freshId store, reg.firstName, reg.lastName, reg.email,
        hashPassword reg.password, false, none⟩
    (⟨true, "User created successfully", some u⟩, store ++ [u])

/-- Modelled from the spec: `Login(email, password)` — on success a token
plus message; on failure (no such email, or password hash mismatch) the same
generic failure carrying a message and no token. -/
def login (store : UserStore) (email pw : String) : LoginResult :=
  match findByEmail store email with
  | none => ⟨false, "Invalid credentials", none⟩
  | some u =>
    if u.password = hashPassword pw then
      ⟨true, "Logged in successfully", some (issueToken u.id)⟩
    else
      ⟨false, "Invalid credentials", none⟩

/-- Modelled from the spec: `RequestVerificationCode(userId)` — stores a
freshly generated code on the account, "replacing any prior code", and
returns a success/failure flag and a message.  Code generation is external
randomness, so the fresh code is an explicit argument; the result message is
a constant, independent of the code. -/
def requestVerificationCode (store : UserStore) (id : String)
    (fresh : String) : ReqVerResult × UserStore :=
  match findById store id with
  | none => (⟨false, "Could not send verification code"⟩, store)
  | some _ =>
    (⟨true, "Verification code sent"⟩,
     store.map (fun u =>
       if u.id = id then { u with verificationCode := some fresh } else u))

/-- Modelled from the spec: `VerifyUser(userId, submittedCode)` — succeeds,
sets isVerified=true and clears verificationCode only if the submitted code
exactly matches the stored value and a code was previously issued (no issued
code always fails). -/
def verifyUser (store : UserStore) (id : String) (code : Option String) :
    VerifyResult × UserStore :=
  match findById store id with
  | none => (⟨false, "Verification failed"⟩, store)
  | some u =>
    match u.verificationCode with
    | none => (⟨false, "Verification failed"⟩, store)
    | some c =>
      if code = some c then
        (⟨true, "User verified successfully"⟩,
         store.map (fun v =>
           if v.id = id then
             { v with isVerified := true, verificationCode := none }
           else v))
      else
        (⟨false, "Verification failed"⟩, store)

/-- Modelled from the spec: `GetUserById(id)` — "returns one account or a
not-found indication". -/
def GetUser (store : UserStore) (id : String) : Option User :=
  findById store id

/-- A partial-update patch as carried by a PUT body: each account field
optionally present.  `verificationCode` is doubly optional: the outer layer
is field presence in the patch, the inner one the stored value. -/
structure UserPatch where
  firstName : Option String
  lastName : Option String
  email : Option String
  password : Option String
  isVerified : Option Bool
  verificationCode : Option (Option String)
deriving Repr, DecidableEq

/-- Generic application of a patch: every field present in the patch
overwrites the stored value, absent fields are unchanged. -/
def applyPatch (u : User) (p : UserPatch) : User :=
  ⟨u.id, p.firstName.getD u.firstName, p.lastName.getD u.lastName,
    p.email.getD u.email, p.password.getD u.password,
    p.isVerified.getD u.isVerified,
    p.verificationCode.getD u.verificationCode⟩

/-- Modelled from the spec: `UpdateUser(id, patch)` — "partial update of
mutable fields; returns updated record or not-found indication".  The spec
flags that "legacy code does not clearly enforce" any exclusion of
isVerified/verificationCode from the patch, so the patch is applied
generically to all fields. -/
def UpdateUser (store : UserStore) (id : String) (p : UserPatch) :
    Option User × UserStore :=
  match findById store id with
  | none => (none, store)
  | some u =>
    let u2 := applyPatch u p
    (some u2, store.map (fun v => if v.id = id then u2 else v))

/-- Modelled from the spec: `DeleteUser(id)` — "removes the account; returns
the deleted record (or an indication nothing existed)". -/
def DeleteUser (store : UserStore) (id : String) : Option User × UserStore :=
  match findById store id with
  | none => (none, store)
  | some u => (some u, store.filter (fun v => ¬ v.id = id))

end UserService

namespace UserController

/-! Handlers, embedded from the controller methods
(user.controller.ts lines 69-143).  Each handler is parametrised over the
service function it calls, mirroring the imported `UserService`; stateful
service calls thread the store explicitly.  For the two verification
handlers, the trusted identity `res.locals.token.id` attached by the token
middleware is the `tokenId` argument, kept distinct from the request body. -/

/-- Embeds `create` (lines 69-78): calls `UserService.CreateUser(body)`,
maps the status flag to 201/400, responds with message and data. -/
def create (svc : UserStore → UserService.RegistrationData → CreateResult × UserStore)
    (store : UserStore) (body : UserService.RegistrationData) :
    HttpResponse × UserStore :=
  let serviceResponse := svc store body
  let statusCode : Nat := if serviceResponse.1.status then 201 else 400
  (⟨statusCode,
    [("message", JVal.leaf (JLeaf.str serviceResponse.1.message)),
     ("data", optUserJVal serviceResponse.1.data)]⟩,
   serviceResponse.2)

/-- Embeds `getUserById` (lines 85-89): calls `UserService.GetUser(id)` with
the `:id` route parameter and always responds 200 with the data. -/
def getUserById (svc : UserStore → String → Option User)
    (store : UserStore) (idParam : String) : HttpResponse :=
  let user := svc store idParam
  ⟨200, [("data", optUserJVal user)]⟩

/-- Embeds `updateUser` (lines 91-97): calls `UserService.UpdateUser(id,
body)` with the `:id` route parameter and the body unchanged; 404 when no
user came back, else 200 with the data. -/
def updateUser (svc : UserStore → String → UserService.UserPatch → Option User × UserStore)
    (store : UserStore) (idParam : String) (body : UserService.UserPatch) :
    HttpResponse × UserStore :=
  let r := svc store idParam body
  match r.1 with
  | none => (⟨404, [("message", JVal.leaf (JLeaf.str "User not found"))]⟩, r.2)
  | some user => (⟨200, [("data", userToJVal user)]⟩, r.2)

/-- Embeds `deleteUser` (lines 99-103): calls `UserService.DeleteUser(id)`
with the `:id` route parameter and always responds 200 with the data. -/
def deleteUser (svc : UserStore → String → Option User × UserStore)
    (store : UserStore) (idParam : String) : HttpResponse × UserStore :=
  let r := svc store idParam
  (⟨200, [("data", optUserJVal r.1)]⟩, r.2)

/-- Embeds `login` (lines 105-121): calls `UserService.login(email,
password)`; on a false status flag responds 404 with only the message, else
200 with a data object holding the message and the auth token. -/
def login (svc : UserStore → String → String → LoginResult)
    (store : UserStore) (email pw : String) : HttpResponse :=
  let serviceResponse := svc store email pw
  if !serviceResponse.status then
    ⟨404, [("message", JVal.leaf (JLeaf.str serviceResponse.message))]⟩
  else
    ⟨200, [("data", JVal.obj
      [("message", JLeaf.str serviceResponse.message),
       ("auth_token", optStr serviceResponse.token)])]⟩

/-- Embeds `requestVerification` (lines 123-131): reads the id from
`res.locals.token` (the `tokenId` argument), never from the request body,
calls `UserService.requestVerificationCode(id)`, maps the status flag to
200/500 and responds with only the message.  The `fresh` argument is the
code the service will generate (external randomness made explicit). -/
def requestVerification (svc : UserStore → String → String → ReqVerResult × UserStore)
    (store : UserStore) (tokenId : String) (body : ReqBody) (fresh : String) :
    HttpResponse × UserStore :=
  let serviceResponse := svc store tokenId fresh
  let statusCode : Nat := if serviceResponse.1.status then 200 else 500
  (⟨statusCode, [("message", JVal.leaf (JLeaf.str serviceResponse.1.message))]⟩,
   serviceResponse.2)

/-- Embeds `verifyUser` (lines 133-143): reads the id from
`res.locals.token` (the `tokenId` argument) and only the `code` field from
the request body, calls `UserService.verifyUser(id, code)`, maps the
verified flag to 200/500 and responds with only the message. -/
def verifyUser (svc : UserStore → String → Option String → VerifyResult × UserStore)
    (store : UserStore) (tokenId : String) (body : ReqBody) :
    HttpResponse × UserStore :=
  let code := bodyLookup body "code"
  let serviceResponse := svc store tokenId code
  let statusCode : Nat := if serviceResponse.1.verified then 200 else 500
  (⟨statusCode, [("message", JVal.leaf (JLeaf.str serviceResponse.1.message))]⟩,
   serviceResponse.2)

end UserController

/-! ## Sample data for concrete evaluations -/

/-- A sample registration input. -/
def regSample : UserService.RegistrationData :=
  ⟨"Ada", "Lovelace", "a@x.com", "pw123"⟩

/-- A sample stored account with an issued verification code. -/
def u1 : User :=
  ⟨"u1", "Ada", "Lovelace", "a@x.com", UserService.hashPassword "pw123",
    false, some "c42"⟩

/-- A sample store holding `u1`. -/
def store1 : UserStore := [u1]

/-- The account `regSample` creates in an empty store. -/
def uCreated : User :=
  ⟨"user-0", "Ada", "Lovelace", "a@x.com", UserService.hashPassword "pw123",
    false, none⟩

/-- `u1` after a successful verification. -/
def uVerified : User :=
  ⟨"u1", "Ada", "Lovelace", "a@x.com", UserService.hashPassword "pw123",
    true, none⟩

/-- A patch that tries to set `isVerified` and clear `verificationCode`
directly. -/
def patchSetVerified : UserService.UserPatch :=
  ⟨none, none, none, none, some true, some none⟩

/-! ## Helper lemmas -/

/-- After the verify update, any record found under the verified id carries
no verification code. -/
theorem findById_verify_update (l : List User) (id : String) (u2 : User)
    (h : findById (l.map (fun v =>
        if v.id = id then { v with isVerified := true, verificationCode := none }
        else v)) id = some u2) :
    u2.verificationCode = none := by
  have hp := List.find?_some h
  have hmem := List.mem_of_find?_eq_some h
  rw [List.mem_map] at hmem
  obtain ⟨v, _, hfv⟩ := hmem
  by_cases hid : v.id = id
  · rw [if_pos hid] at hfv
    rw [← hfv]
  · rw [if_neg hid] at hfv
    simp only [decide_eq_true_eq] at hp
    rw [← hfv] at hp
    exact absurd hp hid

/-- `find?` on a list filtered by the negated predicate yields nothing. -/
theorem findById_filter_out (l : List User) (id : String) :
    findById (l.filter (fun v => ¬ v.id = id)) id = none := by
  rw [findById, List.find?_eq_none]
  intro x hx
  rw [List.mem_filter] at hx
  simp only [decide_eq_true_eq] at hx ⊢
  exact hx.2

/-! ## Claims -/

/-- Claim C1: for RequestVerificationCode and VerifyUser, the user id passed
to the service is exactly the id resolved from the verified bearer token
(`res.locals.token`), never anything from the request body: both handlers
give the same outcome on any two bodies agreeing on the `code` field (so
changing id-like body fields changes nothing), and instantiating the service
with an observer that echoes the id it received shows that id is the token
id. -/
theorem claim_C1
    (svcR : UserStore → String → String → ReqVerResult × UserStore)
    (svcV : UserStore → String → Option String → VerifyResult × UserStore)
    (store : UserStore) (tokenId fresh : String) (b1 b2 : ReqBody)
    (h : bodyLookup b1 "code" = bodyLookup b2 "code") :
    UserController.requestVerification svcR store tokenId b1 fresh
      = UserController.requestVerification svcR store tokenId b2 fresh
    ∧ UserController.verifyUser svcV store tokenId b1
      = UserController.verifyUser svcV store tokenId b2
    ∧ (UserController.requestVerification
        (fun s i _ => (⟨true, i⟩, s)) store tokenId b1 fresh).1.body
      = [("message", JVal.leaf (JLeaf.str tokenId))]
    ∧ (UserController.verifyUser
        (fun s i _ => (⟨true, i⟩, s)) store tokenId b1).1.body
      = [("message", JVal.leaf (JLeaf.str tokenId))] := by
  refine ⟨rfl, ?_, rfl, rfl⟩
  unfold UserController.verifyUser
  rw [h]

theorem claim_C1_witness :
    bodyLookup [("id", "someone-else"), ("code", "c42")] "code"
      = bodyLookup [("code", "c42")] "code"
    ∧ UserController.verifyUser UserService.verifyUser store1 "u1"
        [("id", "someone-else"), ("code", "c42")]
      = UserController.verifyUser UserService.verifyUser store1 "u1"
        [("code", "c42")] :=
  ⟨rfl,
   (claim_C1 UserService.requestVerificationCode UserService.verifyUser
     store1 "u1" "f9" [("id", "someone-else"), ("code", "c42")]
     [("code", "c42")] rfl).2.1⟩

/-- Claim C2: every route registered by `initRoutes` other than POST
/users/register and POST /users/login lists the bearer-token-requiring jwt
middleware before its handler, and those two routes do not list it. -/
theorem claim_C2 :
    routes.all (fun r =>
      if r.method == HttpMethod.post
          && (r.path == "/users/register" || r.path == "/users/login")
      then !(r.middlewares.contains Middleware.jwtTokenRequiring)
      else r.middlewares.contains Middleware.jwtTokenRequiring) = true := by
  decide

/-- Claim C3: for every service result, the request-verification handler
responds 200 when the status flag of the result is true and 500 when it is
false, and the verify-user handler responds 200 when the verified flag is
true and 500 when it is false. -/
theorem claim_C3
    (svcR : UserStore → String → String → ReqVerResult × UserStore)
    (svcV : UserStore → String → Option String → VerifyResult × UserStore)
    (store : UserStore) (tokenId fresh : String) (body : ReqBody) :
    (UserController.requestVerification svcR store tokenId body fresh).1.status
      = (if (svcR store tokenId fresh).1.status then 200 else 500)
    ∧ (UserController.verifyUser svcV store tokenId body).1.status
      = (if (svcV store tokenId (bodyLookup body "code")).1.verified
          then 200 else 500) :=
  ⟨rfl, rfl⟩

/-- Claim C4: the verificationCode field of an account is nullable: an
account coming out of CreateUser carries no verification code (none before
any code is issued), and after a successful VerifyUser the stored account
again carries none — so a stored account need not hold a code string at all
times. -/
theorem claim_C4 (store s2 : UserStore) (reg : UserService.RegistrationData)
    (id : String) (code : Option String) (u u2 : User)
    (hcreate : (UserService.CreateUser store reg).1.data = some u)
    (hverified : (UserService.verifyUser s2 id code).1.verified = true)
    (hfind : findById (UserService.verifyUser s2 id code).2 id = some u2) :
    u.verificationCode = none ∧ u2.verificationCode = none := by
  constructor
  · unfold UserService.CreateUser at hcreate
    cases hm : findByEmail store reg.email <;> rw [hm] at hcreate
    · simp at hcreate
      rw [← hcreate]
    · simp at hcreate
  · cases hm : findById s2 id
    · simp [UserService.verifyUser, hm] at hverified
    · rename_i u0
      cases hvc : u0.verificationCode
      · simp [UserService.verifyUser, hm, hvc] at hverified
      · rename_i c
        by_cases hc : code = some c
        · simp only [UserService.verifyUser, hm, hvc, if_pos hc] at hfind
          exact findById_verify_update s2 id u2 hfind
        · simp [UserService.verifyUser, hm, hvc, if_neg hc] at hverified

theorem claim_C4_witness :
    (UserService.CreateUser [] regSample).1.data = some uCreated
    ∧ (UserService.verifyUser store1 "u1" (some "c42")).1.verified = true
    ∧ findById (UserService.verifyUser store1 "u1" (some "c42")).2 "u1"
      = some uVerified
    ∧ (uCreated.verificationCode = none ∧ uVerified.verificationCode = none) :=
  ⟨rfl, rfl, rfl,
   claim_C4 [] store1 regSample "u1" (some "c42") uCreated uVerified
     rfl rfl rfl⟩

/-- Claim C5 (amended): UpdateUser applies the patch generically — every
field present in the patch, including isVerified and verificationCode,
overwrites the stored value (absent fields are unchanged), and a missing id
yields a not-found result with the store untouched.  The exclusion of
isVerified/verificationCode from arbitrary patches is a design requirement
the modelled legacy behavior does not enforce. -/
theorem claim_C5 (store : UserStore) (id : String)
    (p : UserService.UserPatch) :
    (∀ u, findById store id = some u →
      (UserService.UpdateUser store id p).1
        = some (UserService.applyPatch u p))
    ∧ (findById store id = none →
      UserService.UpdateUser store id p = (none, store))
    ∧ (∀ u,
      (UserService.applyPatch u p).isVerified = p.isVerified.getD u.isVerified
      ∧ (UserService.applyPatch u p).verificationCode
        = p.verificationCode.getD u.verificationCode) := by
  refine ⟨?_, ?_, fun u => ⟨rfl, rfl⟩⟩
  · intro u h
    unfold UserService.UpdateUser
    rw [h]
  · intro h
    unfold UserService.UpdateUser
    rw [h]

theorem claim_C5_witness :
    findById store1 "u1" = some u1
    ∧ (UserService.UpdateUser store1 "u1" patchSetVerified).1
      = some (UserService.applyPatch u1 patchSetVerified) :=
  ⟨rfl, (claim_C5 store1 "u1" patchSetVerified).1 u1 rfl⟩

theorem claim_C5_counterexample :
    (findById (UserService.UpdateUser store1 "u1" patchSetVerified).2
        "u1").map (fun v => (v.isVerified, v.verificationCode))
      = some (true, none)
    ∧ (findById store1 "u1").map
        (fun v => (v.isVerified, v.verificationCode))
      = some (false, some "c42") :=
  ⟨rfl, rfl⟩

/-- Claim C6: the login handler responds 404 with a body carrying only the
message (no token) when the service result has a false status flag, and 200
with a body containing the authentication token and the message when it has
a true one. -/
theorem claim_C6 (store : UserStore) (email pw : String) :
    ((UserService.login store email pw).status = false →
      UserController.login UserService.login store email pw
        = ⟨404, [("message",
            JVal.leaf (JLeaf.str (UserService.login store email pw).message))]⟩)
    ∧ ((UserService.login store email pw).status = true →
      ∃ t, (UserService.login store email pw).token = some t
      ∧ UserController.login UserService.login store email pw
        = ⟨200, [("data", JVal.obj
            [("message",
              JLeaf.str (UserService.login store email pw).message),
             ("auth_token", JLeaf.str t)])]⟩) := by
  constructor
  · intro h
    simp [UserController.login, h]
  · intro h
    cases hm : findByEmail store email
    · simp [UserService.login, hm] at h
    · rename_i u0
      by_cases hpw : u0.password = UserService.hashPassword pw
      · refine ⟨UserService.issueToken u0.id, ?_, ?_⟩
        · simp [UserService.login, hm, hpw]
        · simp [UserController.login, UserService.login, hm, hpw, optStr]
      · simp [UserService.login, hm, hpw] at h

theorem claim_C6_witness :
    (UserService.login store1 "a@x.com" "pw123").status = true
    ∧ ∃ t, (UserService.login store1 "a@x.com" "pw123").token = some t
      ∧ UserController.login UserService.login store1 "a@x.com" "pw123"
        = ⟨200, [("data", JVal.obj
            [("message",
              JLeaf.str (UserService.login store1 "a@x.com" "pw123").message),
             ("auth_token", JLeaf.str t)])]⟩ :=
  ⟨rfl, (claim_C6 store1 "a@x.com" "pw123").2 rfl⟩

/-- Claim C7: CreateUser signals failure only through its boolean status
flag (it is a total function, so expected conflicts never throw), the
registration handler responds 201 exactly when the flag is true and 400
exactly when it is false, and a duplicate email makes the flag false. -/
theorem claim_C7 (store : UserStore) (body : UserService.RegistrationData) :
    ((UserController.create UserService.CreateUser store body).1.status = 201
      ↔ (UserService.CreateUser store body).1.status = true)
    ∧ ((UserController.create UserService.CreateUser store body).1.status = 400
      ↔ (UserService.CreateUser store body).1.status = false)
    ∧ ((findByEmail store body.email).isSome = true →
      (UserService.CreateUser store body).1.status = false) := by
  refine ⟨?_, ?_, ?_⟩
  · cases hs : (UserService.CreateUser store body).1.status <;>
      simp [UserController.create, hs]
  · cases hs : (UserService.CreateUser store body).1.status <;>
      simp [UserController.create, hs]
  · intro h
    cases hm : findByEmail store body.email
    · rw [hm] at h
      simp at h
    · simp [UserService.CreateUser, hm]

theorem claim_C7_witness :
    (findByEmail store1 regSample.email).isSome = true
    ∧ (UserService.CreateUser store1 regSample).1.status = false :=
  ⟨rfl, (claim_C7 store1 regSample).2.2 rfl⟩

/-- Claim C8: GetUserById yields the one matching account or an observable
not-found indication: with no matching record the handler responds with a
null data field, with a match it responds with the serialized account, and
the two bodies are distinguishable. -/
theorem claim_C8 (store : UserStore) (id : String) (u : User) :
    (findById store id = none →
      UserController.getUserById UserService.GetUser store id
        = ⟨200, [("data", JVal.leaf JLeaf.null)]⟩)
    ∧ (findById store id = some u →
      UserController.getUserById UserService.GetUser store id
        = ⟨200, [("data", userToJVal u)]⟩)
    ∧ userToJVal u ≠ JVal.leaf JLeaf.null := by
  refine ⟨?_, ?_, by simp [userToJVal]⟩
  · intro h
    simp [UserController.getUserById, UserService.GetUser, h, optUserJVal]
  · intro h
    simp [UserController.getUserById, UserService.GetUser, h, optUserJVal]

theorem claim_C8_witness :
    findById store1 "missing" = none
    ∧ UserController.getUserById UserService.GetUser store1 "missing"
      = ⟨200, [("data", JVal.leaf JLeaf.null)]⟩ :=
  ⟨rfl, (claim_C8 store1 "missing" u1).1 rfl⟩

/-- Claim C9: DeleteUser on a nonexistent id yields a not-found indication
(a null data field, the store untouched) rather than a crash — the handler
is a total function — while on an existing id it responds with the deleted
record, which afterwards is gone from the store; the two bodies are
distinguishable. -/
theorem claim_C9 (store : UserStore) (id : String) (u : User) :
    (findById store id = none →
      UserController.deleteUser UserService.DeleteUser store id
        = (⟨200, [("data", JVal.leaf JLeaf.null)]⟩, store))
    ∧ (findById store id = some u →
      (UserController.deleteUser UserService.DeleteUser store id).1
        = ⟨200, [("data", userToJVal u)]⟩
      ∧ findById
          (UserController.deleteUser UserService.DeleteUser store id).2 id
        = none)
    ∧ userToJVal u ≠ JVal.leaf JLeaf.null := by
  refine ⟨?_, ?_, by simp [userToJVal]⟩
  · intro h
    simp [UserController.deleteUser, UserService.DeleteUser, h, optUserJVal]
  · intro h
    constructor
    · simp [UserController.deleteUser, UserService.DeleteUser, h, optUserJVal]
    · simp only [UserController.deleteUser, UserService.DeleteUser, h]
      exact findById_filter_out store id

theorem claim_C9_witness :
    findById store1 "missing" = none
    ∧ UserController.deleteUser UserService.DeleteUser store1 "missing"
      = (⟨200, [("data", JVal.leaf JLeaf.null)]⟩, store1) :=
  ⟨rfl, (claim_C9 store1 "missing" u1).1 rfl⟩

/-- Claim C10: the verification-code-request response body holds only a
message field for every service outcome, and the freshly generated code
never reaches the response: the response is identical for any two generated
codes, and the message is one of two constants. -/
theorem claim_C10 (store : UserStore) (tokenId : String) (body : ReqBody)
    (f1 f2 : String) :
    (UserController.requestVerification UserService.requestVerificationCode
        store tokenId body f1).1
      = (UserController.requestVerification UserService.requestVerificationCode
          store tokenId body f2).1
    ∧ ∃ m,
      (UserController.requestVerification UserService.requestVerificationCode
          store tokenId body f1).1.body
        = [("message", JVal.leaf (JLeaf.str m))]
      ∧ (m = "Verification code sent"
        ∨ m = "Could not send verification code") := by
  cases hm : findById store tokenId
  · refine ⟨?_, "Could not send verification code", ?_, Or.inr rfl⟩
    · simp [UserController.requestVerification,
        UserService.requestVerificationCode, hm]
    · simp [UserController.requestVerification,
        UserService.requestVerificationCode, hm]
  · refine ⟨?_, "Verification code sent", ?_, Or.inl rfl⟩
    · simp [UserController.requestVerification,
        UserService.requestVerificationCode, hm]
    · simp [UserController.requestVerification,
        UserService.requestVerificationCode, hm]
